import Mathlib

/-!
Verification development for the `qcomp-2023-stochastic-games-models`
evaluation scripts.  The Python sources (`eval.py`, `eval/data/__init__.py`,
`eval/tools/*.py`) are shallowly embedded: pure fragments become Lean
functions, file contents are modelled by their byte lists, Python floats by
rationals, Python dicts by insertion-ordered association lists, and raised
exceptions by `Option`/`Except` error values.
-/

namespace QComp

/-! ## Python string primitives -/

/-- Split a character list at every occurrence of the separator character,
as Python `str.split(sep)` does for a one-character separator: the empty
string yields `[""]` and adjacent separators yield empty pieces. -/
def splitOnChar (c : Char) : List Char → List (List Char)
  | [] => [[]]
  | x :: rest =>
    let r := splitOnChar c rest
    if x = c then [] :: r
    else
      match r with
      | [] => [[x]]
      | h :: t => (x :: h) :: t

/-- Python `str.split(sep)` for a one-character separator. -/
def pySplit (s : String) (c : Char) : List String :=
  (splitOnChar c s.data).map String.mk

/-- Python `str.startswith`. -/
def pyStartsWith (s marker : String) : Bool :=
  marker.data.isPrefixOf s.data

/-- Python `len(s)` (the character count). -/
def pyLen (s : String) : Nat := s.data.length

/-- Python `s[n:]` (drop the first `n` characters). -/
def pyDrop (s : String) (n : Nat) : String :=
  String.mk (s.data.drop n)

/-- Python `s[:-n]` (drop the last `n` characters). -/
def pyDropRight (s : String) (n : Nat) : String :=
  String.mk (s.data.take (s.data.length - n))

/-- Model of Python `str.splitlines` for strings whose line ends are `\n`
(the only separator produced by the captured process output we model):
`""` gives `[]`, and a trailing newline does not produce a trailing empty
line. -/
def pySplitlines (s : String) : List String :=
  if s = "" then []
  else
    let parts := pySplit s '\n'
    if parts.getLast? = some "" then parts.dropLast else parts

/-- Numeric value of a digit string. -/
def digitsToNat (cs : List Char) : Nat :=
  cs.foldl (fun a c => 10 * a + (c.toNat - 48)) 0

/-- Model of Python `int(s)` on the plain decimal fragment of its grammar
(optional sign followed by digits); failure (`ValueError`) is `none`. -/
def pyInt (s : String) : Option Int :=
  let (neg, cs) :=
    match s.data with
    | '-' :: r => (true, r)
    | '+' :: r => (false, r)
    | r => (false, r)
  if cs.isEmpty then none
  else if cs.all Char.isDigit then
    some (if neg then -(digitsToNat cs : Int) else (digitsToNat cs : Int))
  else none

/-- Model of Python `float(s)` on the decimal fragment of its grammar
(optional sign, integer and/or fractional digits, optional exponent),
with the real value represented as a rational; failure (`ValueError`)
is `none`. -/
def pyFloat (s : String) : Option ℚ :=
  let (neg, cs) :=
    match s.data with
    | '-' :: r => (true, r)
    | '+' :: r => (false, r)
    | r => (false, r)
  let ip := cs.takeWhile Char.isDigit
  let cs := cs.dropWhile Char.isDigit
  let (fp, cs) :=
    match cs with
    | '.' :: r => (r.takeWhile Char.isDigit, r.dropWhile Char.isDigit)
    | r => (([] : List Char), r)
  if ip.isEmpty && fp.isEmpty then none
  else
    let mant : ℚ := (digitsToNat ip : ℚ) + (digitsToNat fp : ℚ) / (10 : ℚ) ^ fp.length
    let core : ℚ := if neg then -mant else mant
    match cs with
    | [] => some core
    | e :: r =>
      if e = 'e' || e = 'E' then
        let (eneg, r2) :=
          match r with
          | '-' :: r2 => (true, r2)
          | '+' :: r2 => (false, r2)
          | r2 => (false, r2)
        let ed := r2.takeWhile Char.isDigit
        let rest := r2.dropWhile Char.isDigit
        if ed.isEmpty || !rest.isEmpty then none
        else
          let ex : ℤ := if eneg then -(digitsToNat ed : ℤ) else (digitsToNat ed : ℤ)
          some (core * (10 : ℚ) ^ ex)
      else none

/-! ## JSON values

Python `json` objects are modelled by an inductive value type; objects are
insertion-ordered association lists, mirroring Python dicts. -/

inductive Json where
  | null
  | bool (b : Bool)
  | int (n : Int)
  | float (q : ℚ)
  | str (s : String)
  | arr (xs : List Json)
  | obj (fields : List (String × Json))

/-- Model of `data[key]` read on a JSON object: first binding wins
(Python dicts have unique keys); `none` models a `KeyError`. -/
def Json.lookup (j : Json) (key : String) : Option Json :=
  match j with
  | .obj fields => List.lookup key fields
  | _ => none

def Json.getStr : Json → Option String
  | .str s => some s
  | _ => none

def Json.getInt : Json → Option Int
  | .int n => some n
  | _ => none

def Json.getFloat : Json → Option ℚ
  | .float q => some q
  | _ => none

def Json.getObj : Json → Option (List (String × Json))
  | .obj fields => some fields
  | _ => none

/-! ## Data model (`eval/data/__init__.py`) -/

/-- The `ErrorType` enumeration. -/
inductive ErrorType where
  | PARSING
  | OUTPUT
  | OUT_OF_MEMORY
  | STACK_OVERFLOW
  | CONVERGENCE
  | INTERNAL
  | GENERIC
deriving DecidableEq

/-- The `value` of each `ErrorType` member. -/
def ErrorType.value : ErrorType → String
  | .PARSING => "parsing"
  | .OUTPUT => "output"
  | .OUT_OF_MEMORY => "memory"
  | .STACK_OVERFLOW => "stackoverflow"
  | .CONVERGENCE => "convergence"
  | .INTERNAL => "internal"
  | .GENERIC => "generic"

/-- All enumeration members, in declaration order. -/
def ErrorType.members : List ErrorType :=
  [.PARSING, .OUTPUT, .OUT_OF_MEMORY, .STACK_OVERFLOW, .CONVERGENCE, .INTERNAL, .GENERIC]

/-- `ErrorType.by_value`: find the member with the given value; a
`KeyError` is `none`. -/
def ErrorType.by_value (value : String) : Option ErrorType :=
  ErrorType.members.find? (fun e => value = e.value)

/-- `TerminationOutcome` dataclass. -/
structure TerminationOutcome where
  construction_time : ℚ
  result : String
deriving DecidableEq

/-- The `Result` hierarchy (`Timeout`, `Error`, `Termination`), flattened
into one inductive; the shared dataclass fields `output`, `error`, `time`
head each constructor. -/
inductive Result where
  | timeout (output : String) (error : String) (time : ℚ)
  | error (output : String) (error : String) (time : ℚ) (code : Int) (error_type : ErrorType)
  | termination (output : String) (error : String) (time : ℚ)
      (outcome : Option TerminationOutcome) (wall_time : ℚ) (user_time : ℚ)
      (resident_size : Int)
deriving DecidableEq

def Result.isTimeout : Result → Bool
  | .timeout .. => true
  | _ => false

def Result.isError : Result → Bool
  | .error .. => true
  | _ => false

/-- An `Execution` record.  The dataclass annotates `tool_hash` as `int`,
but `eval.py` always stores the base64 string of a SHA-256 digest there;
the runtime type is `String`. -/
structure Execution where
  timestamp : ℚ
  tool_hash : String
  result : Result
deriving DecidableEq

/-- An `Experiment` record; `tool_executions` is an insertion-ordered dict
from tool keys to executions. -/
structure Experiment where
  instance_key : String
  input_hash : String
  tool_executions : List (String × Execution)
deriving DecidableEq

/-! ### Serialization (`to_json`) and parsing -/

def TerminationOutcome.to_json (o : TerminationOutcome) : Json :=
  .obj [("construction", .float o.construction_time), ("result", .str o.result)]

def TerminationOutcome.parse (j : Json) : Option TerminationOutcome := do
  let c ← (j.lookup "construction").bind Json.getFloat
  let r ← (j.lookup "result").bind Json.getStr
  pure ⟨c, r⟩

def Result.to_json : Result → Json
  | .timeout o e t =>
    .obj [("type", .str "timeout"), ("stdout", .str o), ("stderr", .str e),
      ("time", .float t)]
  | .error o e t c et =>
    .obj [("type", .str "error"), ("code", .int c), ("error", .str et.value),
      ("stdout", .str o), ("stderr", .str e), ("time", .float t)]
  | .termination o e t oc w u r =>
    let base := [("type", .str "terminated"), ("wall_time", .float w),
      ("user_time", .float u), ("stdout", .str o), ("resident_size", .int r),
      ("stderr", .str e), ("time", .float t)]
    match oc with
    | none => .obj base
    | some out => .obj (base ++ [("outcome", out.to_json)])

/-- `Result.parse`; a `KeyError` or type mismatch is `none`. -/
def Result.parse (j : Json) : Option Result := do
  let data_type ← (j.lookup "type").bind Json.getStr
  let output ← (j.lookup "stdout").bind Json.getStr
  let error ← (j.lookup "stderr").bind Json.getStr
  let time ← (j.lookup "time").bind Json.getFloat
  if data_type = "timeout" then
    pure (.timeout output error time)
  else if data_type = "error" then do
    let code ← (j.lookup "code").bind Json.getInt
    let et ← ((j.lookup "error").bind Json.getStr).bind ErrorType.by_value
    pure (.error output error time code et)
  else if data_type = "terminated" then do
    let outcome ←
      match j.lookup "outcome" with
      | none => pure (none : Option TerminationOutcome)
      | some oj => (TerminationOutcome.parse oj).map some
    let wall ← (j.lookup "wall_time").bind Json.getFloat
    let user ← (j.lookup "user_time").bind Json.getFloat
    let res ← (j.lookup "resident_size").bind Json.getInt
    pure (.termination output error time outcome wall user res)
  else none

def Execution.to_json (e : Execution) : Json :=
  .obj [("timestamp", .float e.timestamp), ("hash", .str e.tool_hash),
    ("result", e.result.to_json)]

def Execution.parse (j : Json) : Option Execution := do
  let ts ← (j.lookup "timestamp").bind Json.getFloat
  let h ← (j.lookup "hash").bind Json.getStr
  let r ← (j.lookup "result").bind Result.parse
  pure ⟨ts, h, r⟩

def Experiment.to_json (e : Experiment) : Json :=
  .obj [("key", .str e.instance_key), ("hash", .str e.input_hash),
    ("tools", .obj (e.tool_executions.map (fun p => (p.1, p.2.to_json))))]

/-- Parse every entry of the serialized `tools` object, in order; any
entry failing to parse fails the whole dict comprehension. -/
def parseToolExecutions : List (String × Json) → Option (List (String × Execution))
  | [] => some []
  | p :: rest => do
    let ex ← Execution.parse p.2
    let tail ← parseToolExecutions rest
    pure ((p.1, ex) :: tail)

def Experiment.parse (j : Json) : Option Experiment := do
  let key ← (j.lookup "key").bind Json.getStr
  let hash ← (j.lookup "hash").bind Json.getStr
  let tools ← (j.lookup "tools").bind Json.getObj
  let execs ← parseToolExecutions tools
  pure ⟨key, hash, execs⟩

/-! ## Byte-level primitives: UTF-8, SHA-256, base64

`Instance.create_hash` feeds bytes into `hashlib.sha256` and base64-encodes
the digest.  Bytes are `Nat` values below 256; 32-bit words are `Nat` values
reduced modulo `2 ^ 32` at every arithmetic step. -/

/-- UTF-8 encoding of one character (Python `str.encode`). -/
def charUtf8 (c : Char) : List Nat :=
  let n := c.toNat
  if n < 128 then [n]
  else if n < 2048 then [192 + (n >>> 6), 128 + (n % 64)]
  else if n < 65536 then [224 + (n >>> 12), 128 + ((n >>> 6) % 64), 128 + (n % 64)]
  else [240 + (n >>> 18), 128 + ((n >>> 12) % 64), 128 + ((n >>> 6) % 64), 128 + (n % 64)]

/-- UTF-8 encoding of a string (Python `str.encode`). -/
def utf8Bytes (s : String) : List Nat :=
  s.data.foldr (fun c acc => charUtf8 c ++ acc) []

/-- Reduce to a 32-bit word. -/
def w32 (x : Nat) : Nat := x % 4294967296

/-- Right rotation of a 32-bit word. -/
def rotr32 (n x : Nat) : Nat := w32 ((x >>> n) + (x <<< (32 - n)))

/-- The SHA-256 round constants. -/
def shaK : List Nat :=
  [1116352408, 1899447441, 3049323471, 3921009573, 961987163,
   1508970993, 2453635748, 2870763221, 3624381080, 310598401,
   607225278, 1426881987, 1925078388, 2162078206, 2614888103,
   3248222580, 3835390401, 4022224774, 264347078, 604807628,
   770255983, 1249150122, 1555081692, 1996064986, 2554220882,
   2821834349, 2952996808, 3210313671, 3336571891, 3584528711,
   113926993, 338241895, 666307205, 773529912, 1294757372,
   1396182291, 1695183700, 1986661051, 2177026350, 2456956037,
   2730485921, 2820302411, 3259730800, 3345764771, 3516065817,
   3600352804, 4094571909, 275423344, 430227734, 506948616,
   659060556, 883997877, 958139571, 1322822218, 1537002063,
   1747873779, 1955562222, 2024104815, 2227730452, 2361852424,
   2428436474, 2756734187, 3204031479, 3329325298]

/-- The SHA-256 initial hash state. -/
def shaH0 : List Nat :=
  [1779033703, 3144134277, 1013904242,
   2773480762, 1359893119, 2600822924,
   528734635, 1541459225]

/-- SHA-256 message padding: append `0x80`, zeros, and the 64-bit big-endian
bit length, reaching a multiple of 64 bytes. -/
def shaPad (msg : List Nat) : List Nat :=
  msg ++ [128] ++ List.replicate ((119 - (msg.length % 64)) % 64) 0 ++
    (List.range 8).map (fun i => ((8 * msg.length) >>> (8 * (7 - i))) % 256)

/-- Big-endian 32-bit word from four bytes. -/
def be32 (bytes : List Nat) : Nat := bytes.foldl (fun a b => 256 * a + b) 0

/-- Extend the 16 words of a block to the 64-word message schedule. -/
def shaSchedule (ws : List Nat) : List Nat :=
  (List.range 48).foldl
    (fun w i =>
      let x2 := w.getD (i + 14) 0
      let x7 := w.getD (i + 9) 0
      let x15 := w.getD (i + 1) 0
      let x16 := w.getD i 0
      let s0 := (rotr32 7 x15) ^^^ (rotr32 18 x15) ^^^ (x15 >>> 3)
      let s1 := (rotr32 17 x2) ^^^ (rotr32 19 x2) ^^^ (x2 >>> 10)
      w ++ [w32 (x16 + s0 + x7 + s1)])
    ws

/-- One round of the SHA-256 compression function; the state is the list
`[a, b, c, d, e, f, g, h]`. -/
def shaRound (st : List Nat) (kw : Nat × Nat) : List Nat :=
  match st with
  | [a, b, c, d, e, f, g, h] =>
    let s1 := (rotr32 6 e) ^^^ (rotr32 11 e) ^^^ (rotr32 25 e)
    let ch := (e &&& f) ^^^ ((e ^^^ 4294967295) &&& g)
    let t1 := w32 (h + s1 + ch + kw.1 + kw.2)
    let s0 := (rotr32 2 a) ^^^ (rotr32 13 a) ^^^ (rotr32 22 a)
    let mj := (a &&& b) ^^^ (a &&& c) ^^^ (b &&& c)
    let t2 := w32 (s0 + mj)
    [w32 (t1 + t2), a, b, c, w32 (d + t1), e, f, g]
  | other => other

/-- Process one 64-byte block. -/
def shaBlock (h : List Nat) (block : List Nat) : List Nat :=
  let ws := (List.range 16).map (fun i => be32 ((block.drop (4 * i)).take 4))
  let w := shaSchedule ws
  let final := (shaK.zip w).foldl shaRound h
  (h.zip final).map (fun p => w32 (p.1 + p.2))

/-- SHA-256 digest (32 bytes) of a byte list (`hashlib.sha256(...).digest()`). -/
def sha256 (msg : List Nat) : List Nat :=
  let padded := shaPad msg
  let hh := (List.range (padded.length / 64)).foldl
    (fun h i => shaBlock h ((padded.drop (64 * i)).take 64)) shaH0
  hh.foldr
    (fun x acc => ((x >>> 24) % 256) :: ((x >>> 16) % 256) :: ((x >>> 8) % 256) :: (x % 256) :: acc)
    []

/-- The base64 alphabet. -/
def b64Char (n : Nat) : Char :=
  "ABCDEFGHIJKLMNOPQRSTUVWXYZabcdefghijklmnopqrstuvwxyz0123456789+/".data.getD n 'A'

/-- Base64 encoding, three bytes to four characters with `=` padding. -/
def b64Chars : List Nat → List Char
  | [] => []
  | [a] => [b64Char (a >>> 2), b64Char ((a % 4) <<< 4), '=', '=']
  | [a, b] =>
    [b64Char (a >>> 2), b64Char (((a % 4) <<< 4) + (b >>> 4)), b64Char ((b % 16) <<< 2), '=']
  | a :: b :: c :: rest =>
    b64Char (a >>> 2) :: b64Char (((a % 4) <<< 4) + (b >>> 4)) ::
      b64Char (((b % 16) <<< 2) + (c >>> 6)) :: b64Char (c % 64) :: b64Chars rest

/-- Base64 encoding to a string (`base64.b64encode(...).decode()`). -/
def b64encode (bytes : List Nat) : String := String.mk (b64Chars bytes)

/-! ## Instances (`eval/data/__init__.py`, class `Instance`)

An `Instance` names a PRISM model file, a property file and a constants
map.  The two files are modelled by their byte contents: `create_hash`
streams exactly those bytes (the 64 KiB read loop concatenates to the whole
file content), so nothing else about the file system is relevant. -/

structure Instance where
  key : String
  prism_model : List Nat
  prism_properties : List Nat
  constants : List (String × String)
deriving DecidableEq

/-- Lexicographic comparison of constant bindings, as Python compares the
`(key, value)` tuples of `sorted(instance.constants.items())`. -/
def constLe (a b : String × String) : Prop :=
  a.1 < b.1 ∨ (a.1 = b.1 ∧ a.2 ≤ b.2)

instance : DecidableRel constLe := fun a b => by
  unfold constLe; infer_instance

instance : IsTotal (String × String) constLe := by
  constructor
  intro a b
  rcases lt_trichotomy a.1 b.1 with h | h | h
  · exact Or.inl (Or.inl h)
  · rcases le_total a.2 b.2 with h2 | h2
    · exact Or.inl (Or.inr ⟨h, h2⟩)
    · exact Or.inr (Or.inr ⟨h.symm, h2⟩)
  · exact Or.inr (Or.inl h)

instance : IsTrans (String × String) constLe := by
  constructor
  intro a b c hab hbc
  rcases hab with h1 | ⟨h1, h1v⟩ <;> rcases hbc with h2 | ⟨h2, h2v⟩
  · exact Or.inl (h1.trans h2)
  · exact Or.inl (h2 ▸ h1)
  · exact Or.inl (h1 ▸ h2)
  · exact Or.inr ⟨h1.trans h2, h1v.trans h2v⟩

instance : IsAntisymm (String × String) constLe := by
  constructor
  intro a b hab hba
  rcases hab with h1 | ⟨h1, h1v⟩ <;> rcases hba with h2 | ⟨h2, h2v⟩
  · exact absurd (h1.trans h2) (lt_irrefl _)
  · exact absurd h1 (h2 ▸ lt_irrefl _)
  · exact absurd h2 (h1 ▸ lt_irrefl _)
  · exact Prod.ext h1 (le_antisymm h1v h2v)

/-- Model of Python `sorted(instance.constants.items())`: a stable sort by
the lexicographic tuple order. -/
def sortedConstants (cs : List (String × String)) : List (String × String) :=
  cs.insertionSort constLe

/-- The byte stream `create_hash` feeds into the SHA-256 hasher: the model
file's bytes, then the property file's bytes, then for each constant in
sorted order the UTF-8 bytes of its key directly followed by those of its
value. -/
def Instance.hash_input (i : Instance) : List Nat :=
  i.prism_model ++ i.prism_properties ++
    (sortedConstants i.constants).foldr
      (fun p acc => utf8Bytes p.1 ++ utf8Bytes p.2 ++ acc) []

/-- `Instance.create_hash`: base64 of the SHA-256 digest of the streamed
bytes. -/
def Instance.create_hash (i : Instance) : String :=
  b64encode (sha256 i.hash_input)

/-- The cached `hash` property. -/
def Instance.hash (i : Instance) : String := i.create_hash

/-! ## Tools (`eval/tools/*.py`)

The configured tool set `TOOLS` of `eval.py` draws from four classes:
`PET` (with and without `--core`), `PRISMGames` (an engine flag),
`PRISMGamesExtensions` (a solution-method enum) and `Tempest`.  Python
`pathlib.Path` arguments are modelled by their string form, which is all
`get_invocation` uses of them. -/

/-- The `PRISMGamesExtensions.Method` enumeration. -/
inductive PGMethod where
  | INTERVAL_ITERATION
  | OPTIMISTIC_VALUE_ITERATION
  | WIDEST_PATH
deriving DecidableEq

/-- The method's `key` property. -/
def PGMethod.key : PGMethod → String
  | .INTERVAL_ITERATION => "ii"
  | .OPTIMISTIC_VALUE_ITERATION => "ovi"
  | .WIDEST_PATH => "wp"

/-- The method's `invocation` property. -/
def PGMethod.invocation : PGMethod → List String
  | .INTERVAL_ITERATION => ["-ii"]
  | .OPTIMISTIC_VALUE_ITERATION => ["-ovi", "-maxiters", "1"]
  | .WIDEST_PATH => ["-wp"]

/-- A configured tool object. -/
inductive ToolSpec where
  | pet (core : Bool)
  | prismGames (engine : String)
  | prismGamesExt (method : PGMethod)
  | tempest
deriving DecidableEq

/-- Each tool's `unique_key` property. -/
def ToolSpec.unique_key : ToolSpec → String
  | .pet core => if core then "pet-core" else "pet"
  | .prismGames engine => "prism-games-" ++ engine
  | .prismGamesExt m => "prism-games-extension-" ++ m.key
  | .tempest => "tempest"

/-- Each tool's `docker_image_name` property. -/
def ToolSpec.docker_image_name : ToolSpec → String
  | .pet _ => "pet:latest"
  | .prismGames _ => "prism-games:latest"
  | .prismGamesExt _ => "prism-games-extensions:latest"
  | .tempest => "tempest:latest"

/-- The `TOOLS` list of `eval.py`, in declaration order. -/
def TOOLS : List ToolSpec :=
  [.pet true, .pet false, .prismGames "explicit", .prismGames "mtbdd",
   .prismGamesExt .INTERVAL_ITERATION, .prismGamesExt .OPTIMISTIC_VALUE_ITERATION,
   .prismGamesExt .WIDEST_PATH, .tempest]

/-- The constants argument `",".join(f"{a}={b}" ...)`. -/
def joinConstants (constants : List (String × String)) : String :=
  String.intercalate "," (constants.map (fun p => p.1 ++ "=" ++ p.2))

/-- `PET.get_invocation` — note it declares only the three parameters
`model_path`, `constants`, `properties_path`. -/
def petInvocation (core : Bool) (model_path : String)
    (constants : List (String × String)) (properties_path : String) : List String :=
  ["pet", "ssg", "-m", model_path, "-p", properties_path, "--property", "0",
   "--precision", "1e-6"] ++
    (if constants.isEmpty then [] else ["--const", joinConstants constants]) ++
    (if core then ["--core"] else [])

/-- `PRISMGames.get_invocation`, with the fourth parameter `memory_limit`;
Python `//` is floor division. -/
def prismGamesInvocation (engine : String) (model_path : String)
    (constants : List (String × String)) (properties_path : String)
    (memory_limit : Int) : List String :=
  ["prism", model_path, properties_path, "--property", "1", "--" ++ engine,
   "-epsilon", "1e-6", "-maxiters", "1000000",
   "-javamaxmem", toString (memory_limit - 128) ++ "m",
   "-cuddmaxmem", toString (Int.fdiv memory_limit 2) ++ "m",
   "-javastack", "128m"] ++
    (if constants.isEmpty then [] else ["--const", joinConstants constants])

/-- `PRISMGamesExtensions.get_invocation`, with the fourth parameter
`memory_limit`. -/
def prismExtInvocation (method : PGMethod) (model_path : String)
    (constants : List (String × String)) (properties_path : String)
    (memory_limit : Int) : List String :=
  (["prism", model_path, properties_path, "--property", "1",
    "-epsilon", "1e-6", "-maxiters", "1000000",
    "-javamaxmem", toString (memory_limit - 128) ++ "m",
    "-cuddmaxmem", toString (Int.fdiv memory_limit 2) ++ "m",
    "-javastack", "128m"] ++ method.invocation) ++
    (if constants.isEmpty then [] else ["--const", joinConstants constants])

/-- `Tempest.get_invocation` — again only three parameters. -/
def tempestInvocation (model_path : String) (constants : List (String × String))
    (properties_path : String) : List String :=
  ["storm", "--prism", model_path, "--prop", properties_path,
   "--precision", "1e-6"] ++
    (if constants.isEmpty then [] else ["--constants", joinConstants constants])

/-- Exceptions the embedded Python fragments can raise. -/
inductive PyExc where
  | typeError
  | assertionError
  | attributeError
deriving DecidableEq

/-- The call `tool.get_invocation(model, constants, props, memory)` made by
`run` with four positional arguments.  `PET.get_invocation` and
`Tempest.get_invocation` declare only three parameters, so for those tools
the call itself raises `TypeError`; the PRISM-family tools declare the
fourth parameter `memory_limit` and return a command line. -/
def call_get_invocation (t : ToolSpec) (model_path : String)
    (constants : List (String × String)) (properties_path : String)
    (memory : Int) : Except PyExc (List String) :=
  match t with
  | .pet _ => .error .typeError
  | .tempest => .error .typeError
  | .prismGames engine =>
    .ok (prismGamesInvocation engine model_path constants properties_path memory)
  | .prismGamesExt m =>
    .ok (prismExtInvocation m model_path constants properties_path memory)

/-- The opening of `run`: `assert memory > 1024`, then the invocation call
with the in-container model and property paths. -/
def run_invocation (t : ToolSpec) (constants : List (String × String))
    (memory : Int) : Except PyExc (List String) :=
  if memory ≤ 1024 then .error .assertionError
  else call_get_invocation t "/tmp/model.prism" constants "/tmp/model.props" memory

/-! ### Outcome parsing (`PRISMTool.parse_outcome`, `Tempest.parse_outcome`)

`.error ()` models an exception escaping `parse_outcome` (a failing
`float(...)`); `.ok none` models returning `None`. -/

/-- `PRISMTool.parse_outcome`: the construction time comes from the first
line starting with its marker (the loop breaks); the result is assigned on
every line of `lines[::-1]` starting with `"Result: "` — there is no break,
so the final assignment comes from the last element of the reversed list,
i.e. the first matching line of the original stdout. -/
def prismParseOutcome (stdout : String) (_stderr : String) :
    Except Unit (Option TerminationOutcome) :=
  let lines := pySplitlines stdout
  match lines.find? (fun l => pyStartsWith l "Time for model construction: ") with
  | none => .ok none
  | some line =>
    match pyFloat ((pySplit (pyDrop line (pyLen "Time for model construction: ")) ' ').headD "") with
    | none => .error ()
    | some construction =>
      let result := lines.reverse.foldl
        (fun acc l =>
          if pyStartsWith l "Result: " then
            some ((pySplit (pyDrop l (pyLen "Result: ")) ' ').headD "")
          else acc)
        (none : Option String)
      match result with
      | none => .ok none
      | some r => .ok (some ⟨construction, r⟩)

/-- `Tempest.parse_outcome`: same structure; the construction time drops the
final two characters instead of splitting on a space, and the result keeps
the whole remainder of the line.  The result loop again iterates
`lines[::-1]` without a break. -/
def tempestParseOutcome (stdout : String) (_stderr : String) :
    Except Unit (Option TerminationOutcome) :=
  let lines := pySplitlines stdout
  match lines.find? (fun l => pyStartsWith l "Time for model construction: ") with
  | none => .ok none
  | some line =>
    match pyFloat (pyDropRight (pyDrop line (pyLen "Time for model construction: ")) 2) with
    | none => .error ()
    | some construction =>
      let result := lines.reverse.foldl
        (fun acc l =>
          if pyStartsWith l "Result (for initial states): " then
            some (pyDrop l (pyLen "Result (for initial states): "))
          else acc)
        (none : Option String)
      match result with
      | none => .ok none
      | some r => .ok (some ⟨construction, r⟩)

/-! ## The runner's result decoding (`run`, `eval.py`) -/

/-- Substring test, modelling Python `sub in s`. -/
def charsContain (hay : List Char) (needle : List Char) : Bool :=
  match hay with
  | [] => needle.isEmpty
  | _ :: t => needle.isPrefixOf hay || charsContain t needle

/-- Python `sub in s` on strings. -/
def strContains (s sub : String) : Bool := charsContain s.data sub.data

/-- `recognize_error` of `eval.py`.  The `memory_errors` set is tested with
`any(err in stderr ...)`; set iteration order is irrelevant to the value.
`tool.recognize_error` is the base-class implementation returning `None`
for every tool in this repository (no subclass overrides it), so the final
fallthrough is `GENERIC`. -/
def recognize_error (_stdout stderr : String) (_exit_code : Int) : ErrorType :=
  if strContains stderr "java.lang.OutOfMemoryError" ||
      strContains stderr "ArrayIndexOutOfBounds" ||
      strContains stderr "NegativeArraySizeException" then .OUT_OF_MEMORY
  else if strContains stderr "java.lang.StackOverflowError" then .STACK_OVERFLOW
  else if strContains stderr "Iterative method did not converge" then .CONVERGENCE
  else if strContains stderr "IllegalArgumentException" then .INTERNAL
  else .GENERIC

/-- Parse the `/usr/bin/time` measurement record
`"%x,%e,%U,%M"` = `int,float,float,int` from the last stderr line:
`time_data[0..3]` are read and converted, an `IndexError` or `ValueError`
giving `none`.  Elements past the fourth are never accessed. -/
def parseTimeRecord (line : String) : Option (Int × ℚ × ℚ × Int) :=
  let time_data := pySplit line ','
  match time_data[0]?, time_data[1]?, time_data[2]?, time_data[3]? with
  | some a, some b, some c, some d =>
    match pyInt a, pyFloat b, pyFloat c, pyInt d with
    | some i0, some f1, some f2, some i3 => some (i0, f1, f2, i3)
    | _, _, _, _ => none
  | _, _, _, _ => none

/-- The result-decoding tail of `run`, from reading the sandbox exit status
to returning a `Result`.  `po` is the tool's `parse_outcome` (an `.error`
models it raising); `duration` is `time.time() - start`.  The mismatch
warning between the recorded and the observed exit code only logs, so the
record's own exit-code field is unused here.  The function is total: every
path yields a `Result` value. -/
def decodeRun (po : String → String → Except Unit (Option TerminationOutcome))
    (exit_code : Int) (stdout stderr : String) (duration : ℚ) : Result :=
  if exit_code = 124 ∨ exit_code = 137 then .timeout stdout stderr duration
  else
    let stderr_lines := pySplitlines stderr
    if stderr_lines.length < 2 then .error stdout stderr duration exit_code .OUTPUT
    else
      match parseTimeRecord (stderr_lines.getLastD "") with
      | none => .error stdout stderr duration exit_code .OUTPUT
      | some (_, wall, user, resident) =>
        if exit_code ≠ 0 then
          .error stdout stderr duration exit_code (recognize_error stdout stderr exit_code)
        else
          match po stdout stderr with
          | .error _ => .error stdout stderr duration exit_code .OUTPUT
          | .ok outcome => .termination stdout stderr duration outcome wall user resident

/-! ## The planner (`should_execute`, `eval.py`)

`should_execute(i, t, e)` is a closure inside `main`.  It references the
enclosing loop variables `tool`, `instance` and `experiment` in several
places; at its single call site `should_execute(instance, tool, experiment)`
those are exactly its parameters `t`, `i`, `e`, so the embedding reads them
as the parameters.  The dicts `tool_hashes` and `image_ages` (keyed by tool
objects, which hash and compare by `unique_key`) are modelled as total
functions, `args.repeat_before` as an optional rational tested for Python
truthiness (absent, or present and zero, are both falsy), and
`image_ages[t].timestamp()` as the rational `image_ages t`.

Before the `return True` of the force path (line 270) and of the
not-executed path (line 273), and before the final `return False` of the
skip path (line 296), the source calls `logger.trace(...)`.  `logger` is a
plain `logging.getLogger("main")`, and `logging.Logger` has no `trace`
method (none of the imported packages adds one), so attribute lookup raises
`AttributeError` on exactly those three paths before any value is
returned.  The five staleness paths of conditions (3)-(7) call
`logger.debug`, which exists, and return `True` normally. -/

/-- Python truthiness of `args.repeat_before` (an optional float). -/
def pyTruthy (o : Option ℚ) : Bool :=
  match o with
  | none => false
  | some v => decide (v ≠ 0)

/-- The `should_execute` closure of `main`: `.ok` is a normal return,
`.error .attributeError` models the `logger.trace` attribute lookup
raising on the force, not-executed and skip paths. -/
def should_execute (force : Bool) (repeat_before : Option ℚ) (timeout : ℚ)
    (tool_hashes : ToolSpec → String) (image_ages : ToolSpec → ℚ)
    (i : Instance) (t : ToolSpec) (e : Option Experiment) : Except PyExc Bool :=
  if force then .error .attributeError
  else
    match e with
    | none => .error .attributeError
    | some experiment =>
      match List.lookup t.unique_key experiment.tool_executions with
      | none => .error .attributeError
      | some ex =>
        if pyTruthy repeat_before && decide (ex.timestamp < repeat_before.getD 0) then .ok true
        else if ex.tool_hash ≠ tool_hashes t then .ok true
        else if decide (ex.timestamp < image_ages t) then .ok true
        else if (match ex.result with
                 | .timeout _ _ tm => decide (tm < timeout)
                 | _ => false) then .ok true
        else if experiment.input_hash ≠ i.hash then .ok true
        else .error .attributeError

/-! ## The execution loop and the save step (`main`, `eval.py`) -/

/-- Python dict item assignment `m[k] = v` on an insertion-ordered
association list: overwrite in place if the key is present, else append. -/
def dictSet {α : Type} (m : List (String × α)) (k : String) (v : α) : List (String × α) :=
  match m with
  | [] => [(k, v)]
  | (k0, v0) :: rest => if k0 = k then (k0, v) :: rest else (k0, v0) :: dictSet rest k v

/-- In-place mutation of the value stored under `k` (used for the update of
`experiments[instance.key].tool_executions`; the key is present whenever
this is reached). -/
def dictModify {α : Type} (m : List (String × α)) (k : String) (f : α → α) :
    List (String × α) :=
  match m with
  | [] => []
  | (k0, v0) :: rest => if k0 = k then (k0, f v0) :: rest else (k0, v0) :: dictModify rest k f

/-- The recording step of `main`'s loop body: create a fresh `Experiment`
(with the instance's current hash and an empty executions dict) only when
`instance.key` is absent, then assign the execution under the tool's key. -/
def record_execution (experiments : List (String × Experiment))
    (ikey ihash tkey : String) (execution : Execution) : List (String × Experiment) :=
  let experiments :=
    if (List.lookup ikey experiments).isNone then
      dictSet experiments ikey ⟨ikey, ihash, []⟩
    else experiments
  dictModify experiments ikey
    (fun ex => { ex with tool_executions := dictSet ex.tool_executions tkey execution })

/-- One completed `(instance, tool)` pair of the loop: the keys and hash
read from the loop variables, and the `Execution` built from the run. -/
structure RunRecord where
  instance_key : String
  instance_hash : String
  tool_key : String
  execution : Execution

/-- The loop over completed pairs. -/
def exec_loop (recs : List RunRecord) (experiments : List (String × Experiment)) :
    List (String × Experiment) :=
  recs.foldl
    (fun m r => record_execution m r.instance_key r.instance_hash r.tool_key r.execution)
    experiments

/-- The save step: `json.dump([experiment.to_json() for experiment in
experiments.values()], f)`, modelled as the JSON value written. -/
def serialize_experiments (experiments : List (String × Experiment)) : Json :=
  .arr (experiments.map (fun p => p.2.to_json))

/-- `main`'s execution loop followed by the save step.  A
`KeyboardInterrupt` arriving after `k` completed recordings is modelled by
`interrupt_after = some k`: the `try` block stops there, the `except
KeyboardInterrupt` handler only logs, and control falls through to the save
step, which serializes the current in-memory store. -/
def main_loop_save (recs : List RunRecord) (interrupt_after : Option Nat)
    (experiments : List (String × Experiment)) : Json :=
  let processed :=
    match interrupt_after with
    | none => recs
    | some k => recs.take k
  serialize_experiments (exec_loop processed experiments)

/-! ## The sandbox cleanup (`finally` block of `run`, `eval.py`)

The three docker calls of the `finally` block each either succeed (`none`)
or raise one of the exception types the function deals in: `APIError`,
`requests.ReadTimeout`, `requests.ConnectionError`.  Each step has its own
`try`/`except`: `container.kill()` catches only `APIError`;
`container.wait(timeout=10)` catches `APIError`, `ReadTimeout` and
`ConnectionError`; `container.remove()` catches only `APIError` (logging a
warning).  An exception a step's handler does not catch propagates out of
the `finally` block, skipping the remaining steps. -/

inductive DockerExc where
  | apiError
  | readTimeout
  | connectionError
deriving DecidableEq

inductive CleanupStep where
  | kill
  | wait
  | remove
deriving DecidableEq

/-- The exception types caught by the `except` clause of the kill step. -/
def killCaught : DockerExc → Bool
  | .apiError => true
  | _ => false

/-- The exception types caught by the `except` clause of the wait step. -/
def waitCaught : DockerExc → Bool
  | .apiError => true
  | .readTimeout => true
  | .connectionError => true

/-- The exception types caught by the `except` clause of the remove step. -/
def removeCaught : DockerExc → Bool
  | .apiError => true
  | _ => false

/-- The wait and remove steps of the `finally` block.  The returned triple
is: the steps attempted from this point, the exception escaping the block
(if any), and whether a removal failure was logged. -/
def cleanupFromWait (wait remove : Option DockerExc) :
    List CleanupStep × Option DockerExc × Bool :=
  let waitOk :=
    match wait with
    | none => true
    | some e => waitCaught e
  if waitOk then
    match remove with
    | none => ([.wait, .remove], none, false)
    | some e =>
      if removeCaught e then ([.wait, .remove], none, true)
      else ([.wait, .remove], some e, false)
  else ([.wait], wait, false)

/-- The whole `finally` block, starting at the kill step. -/
def cleanup (kill wait remove : Option DockerExc) :
    List CleanupStep × Option DockerExc × Bool :=
  match kill with
  | none => let r := cleanupFromWait wait remove; (.kill :: r.1, r.2)
  | some e =>
    if killCaught e then let r := cleanupFromWait wait remove; (.kill :: r.1, r.2)
    else ([.kill], some e, false)

/-- `try`/`finally` semantics of `run`'s exit: the cleanup always executes,
whatever the body produced (a result or an exception); an exception raised
inside the `finally` block replaces the body's outcome. -/
def run_with_cleanup (body : Except DockerExc Result)
    (kill wait remove : Option DockerExc) : List CleanupStep × Except DockerExc Result :=
  let r := cleanup kill wait remove
  (r.1, match r.2.1 with
        | some e => .error e
        | none => body)

/-! ## Auxiliary definitions for the claims -/

/-- The `Result` variant coverage asked of the round-trip experiment set:
at least one `Timeout`, one `Error`, and one `Termination` whose outcome
is absent. -/
def hasEachVariant (es : List Experiment) : Bool :=
  let results := es.foldr (fun e acc => e.tool_executions.map (fun p => p.2.result) ++ acc) []
  results.any Result.isTimeout && results.any Result.isError &&
    results.any (fun r =>
      match r with
      | .termination _ _ _ none _ _ _ => true
      | _ => false)

/-- The stored execution of one tool inside one experiment of the store. -/
def getExec (m : List (String × Experiment)) (ik tk : String) : Option Execution :=
  (List.lookup ik m).bind (fun e => List.lookup tk e.tool_executions)

/-- A concrete experiment set with each `Result` variant, the termination
one with outcome absent. -/
def c3Experiments : List Experiment :=
  [⟨"i1", "h1",
    [("pet", ⟨1, "th1", .timeout "to-out" "to-err" 5⟩),
     ("tempest", ⟨2, "th2", .error "er-out" "er-err" 1 137 .GENERIC⟩)]⟩,
   ⟨"i2", "h2", [("pet", ⟨3, "th1", .termination "t-out" "t-err" 2 none 1 1 4096⟩)]⟩]

/-- Two instances with identical file bytes whose distinct constants maps
feed identical byte streams to the hasher: `a=bc` and `ab=c` both
concatenate to the bytes of `"abc"`. -/
def c4FirstInstance : Instance := ⟨"inst", [104, 105], [33], [("a", "bc")]⟩

/-- See `c4FirstInstance`. -/
def c4SecondInstance : Instance := ⟨"inst", [104, 105], [33], [("ab", "c")]⟩

/-- A PRISM-family stdout carrying one construction line and two result
lines with different values. -/
def c7PrismStdout : String :=
  "Time for model construction: 1.0 seconds\nResult: 0.25 (value)\nResult: 0.75 (value)"

/-- A Tempest stdout carrying one construction line and two result lines
with different values. -/
def c7TempestStdout : String :=
  "Time for model construction: 1.5s.\nResult (for initial states): 0.25\nResult (for initial states): 0.75"

/-- A concrete execution record. -/
def c9Execution : Execution := ⟨10, "toolhash", .timeout "out" "err" 600⟩

/-- A second concrete execution record for the same pair. -/
def c9SecondExecution : Execution := ⟨20, "toolhash", .error "o2" "e2" 3 1 .GENERIC⟩

/-- A two-record loop schedule touching the same `(instance, tool)` pair
twice. -/
def c9Records : List RunRecord :=
  [⟨"i", "ih", "pet", c9Execution⟩, ⟨"i", "ih", "pet", c9SecondExecution⟩]

/-- A one-experiment store for the frame witness. -/
def c10Store : List (String × Experiment) :=
  [("other", ⟨"other", "oh", [("pet", ⟨7, "t", .timeout "a" "b" 1⟩)]⟩)]

/-- A concrete execution for the frame witness. -/
def c10Execution : Execution := ⟨5, "hash", .termination "o" "e" 2 none 1 1 64⟩

/-- A concrete instance for evaluating the planner. -/
def c1Instance : Instance := ⟨"k", [], [], []⟩

/-- A stored execution whose staleness conditions can all be made false. -/
def c1Execution : Execution := ⟨50, "h", .termination "o" "e" 1 none 1 1 10⟩

/-- A prior experiment for `c1Instance` whose stored input hash matches the
instance's current hash (as `main` stores it) and which holds
`c1Execution` under the Tempest key. -/
def c1Experiment : Experiment :=
  ⟨"k", Instance.hash c1Instance, [("tempest", c1Execution)]⟩

/-! # Theorems

Helper lemmas first, then one theorem per specification claim (with its
witness or counterexample). -/

/-! ### Round-trip lemmas -/

theorem ErrorType.by_value_value (et : ErrorType) : ErrorType.by_value et.value = some et := by
  cases et <;> rfl

theorem outcome_parse_to_json (o : TerminationOutcome) :
    TerminationOutcome.parse o.to_json = some o := by
  rfl

theorem result_parse_to_json (r : Result) : Result.parse r.to_json = some r := by
  cases r with
  | timeout o e t => rfl
  | error o e t c et => cases et <;> rfl
  | termination o e t oc w u r =>
    cases oc with
    | none => rfl
    | some out => rfl

theorem execution_parse_to_json (e : Execution) : Execution.parse e.to_json = some e := by
  cases e with
  | mk ts h r =>
    simp [Execution.to_json, Execution.parse, Json.lookup, List.lookup, Json.getFloat,
      Json.getStr, result_parse_to_json, Option.bind]

theorem experiment_parse_to_json (e : Experiment) : Experiment.parse e.to_json = some e := by
  cases e with
  | mk key hash execs =>
    have hm : parseToolExecutions (execs.map (fun p => (p.1, p.2.to_json))) = some execs := by
      induction execs with
      | nil => rfl
      | cons hd tl ih =>
        simp [parseToolExecutions, execution_parse_to_json, ih, Option.bind]
    simp [Experiment.to_json, Experiment.parse, Json.lookup, List.lookup, Json.getObj,
      Json.getStr, hm, Option.bind]

/-- Two constant lists holding the same bindings sort identically. -/
theorem sortedConstants_eq_of_perm {c1 c2 : List (String × String)} (h : c1.Perm c2) :
    sortedConstants c1 = sortedConstants c2 := by
  apply List.eq_of_perm_of_sorted (r := constLe)
  · exact (List.perm_insertionSort constLe c1).trans (h.trans (List.perm_insertionSort constLe c2).symm)
  · exact List.sorted_insertionSort constLe c1
  · exact List.sorted_insertionSort constLe c2


/-! ## Claim C3: serialization round trip -/

/-- C3: for every set of Experiment records containing at least one of each
`Result` variant — among them a `Termination` with outcome absent —
parsing the serialized form gives back exactly the original records:
`Experiment.parse (Experiment.to_json e) = some e` for each of them. -/
theorem claim_c3_roundtrip (es : List Experiment) (_h : hasEachVariant es = true) :
    es.map (fun e => Experiment.parse e.to_json) = es.map some := by
  simp [experiment_parse_to_json]

/-- Witness for C3 on a concrete experiment set covering every variant. -/
theorem claim_c3_roundtrip_witness :
    hasEachVariant c3Experiments = true ∧
    c3Experiments.map (fun e => Experiment.parse e.to_json) = c3Experiments.map some :=
  ⟨by decide, claim_c3_roundtrip c3Experiments (by decide)⟩

/-! ## Claim C4: the instance hash -/

/-- C4 fails as stated: changing a constant need not change the hash.  The
two concrete instances share file bytes, their constants maps differ, yet
`create_hash` agrees, because the sorted `key+value` concatenation is
separator-free: `a=bc` and `ab=c` both stream the bytes of `"abc"`. -/
theorem claim_c4_counterexample :
    c4FirstInstance.prism_model = c4SecondInstance.prism_model ∧
    c4FirstInstance.prism_properties = c4SecondInstance.prism_properties ∧
    c4FirstInstance.constants ≠ c4SecondInstance.constants ∧
    Instance.create_hash c4FirstInstance = Instance.create_hash c4SecondInstance := by
  refine ⟨rfl, rfl, by decide, ?_⟩
  have h : Instance.hash_input c4FirstInstance = Instance.hash_input c4SecondInstance := by
    decide
  unfold Instance.create_hash
  rw [h]

/-- C4 (amended): the hash is a pure function of the model bytes, the
property bytes and the constants map — equal bytes and equal maps (in any
insertion order) give equal hashes. -/
theorem claim_c4_hash_pure (i1 i2 : Instance)
    (hm : i1.prism_model = i2.prism_model)
    (hp : i1.prism_properties = i2.prism_properties)
    (hc : i1.constants.Perm i2.constants) :
    Instance.create_hash i1 = Instance.create_hash i2 := by
  unfold Instance.create_hash Instance.hash_input
  rw [hm, hp, sortedConstants_eq_of_perm hc]

/-- Witness for C4 (amended) at concrete instances with permuted
constants. -/
theorem claim_c4_hash_pure_witness :
    Instance.create_hash ⟨"a", [1], [2], [("x", "1"), ("y", "2")]⟩ =
      Instance.create_hash ⟨"b", [1], [2], [("y", "2"), ("x", "1")]⟩ :=
  claim_c4_hash_pure _ _ rfl rfl (by decide)

/-! ## Claim C5: timeout exit codes -/

/-- C5: an execution whose sandbox exit code is 124 or 137 decodes to a
`Timeout`, whatever the captured stdout and stderr contain. -/
theorem claim_c5_timeout_codes
    (po : String → String → Except Unit (Option TerminationOutcome))
    (exit_code : Int) (stdout stderr : String) (duration : ℚ)
    (h : exit_code = 124 ∨ exit_code = 137) :
    decodeRun po exit_code stdout stderr duration = .timeout stdout stderr duration := by
  unfold decodeRun
  rw [if_pos h]

/-- Witness for C5 at exit code 124 with degenerate stderr. -/
theorem claim_c5_timeout_codes_witness :
    decodeRun (fun _ _ => .ok none) 124 "out" "" 3 = .timeout "out" "" 3 :=
  claim_c5_timeout_codes (fun _ _ => .ok none) 124 "out" "" 3 (Or.inl rfl)

/-! ## Claim C6: malformed measurement records -/

/-- C6: for any other exit code, a stderr of fewer than two lines, or a
last line that does not parse as the `int,float,float,int` measurement
record, decodes to `Error(..., OUTPUT)`; the decoder is a total function,
so no input raises. -/
theorem claim_c6_output_error
    (po : String → String → Except Unit (Option TerminationOutcome))
    (exit_code : Int) (stdout stderr : String) (duration : ℚ)
    (h124 : exit_code ≠ 124) (h137 : exit_code ≠ 137)
    (hbad : (pySplitlines stderr).length < 2 ∨
      parseTimeRecord ((pySplitlines stderr).getLastD "") = none) :
    decodeRun po exit_code stdout stderr duration =
      .error stdout stderr duration exit_code .OUTPUT := by
  have hne : ¬(exit_code = 124 ∨ exit_code = 137) := fun h => h.elim h124 h137
  rcases hbad with hl | hr
  · simp [decodeRun, hne, hl]
  · by_cases hl : (pySplitlines stderr).length < 2
    · simp [decodeRun, hne, hl]
    · rw [List.getLastD_eq_getLast?] at hr
      simp [decodeRun, hne, hl, hr]

/-- Witness for C6 on a stderr whose last line has too few fields. -/
theorem claim_c6_output_error_witness :
    decodeRun (fun _ _ => .ok none) 0 "out" "x\nnot-a-record" 2 =
      .error "out" "x\nnot-a-record" 2 0 .OUTPUT :=
  claim_c6_output_error (fun _ _ => .ok none) 0 "out" "x\nnot-a-record" 2
    (by decide) (by decide) (by decide)

/-! ## Claim C2: the runner / invocation-builder contract -/

/-- C2 fails on the code: `run` passes four positional arguments
(`model`, `constants`, `properties`, `memory`) to `get_invocation`, but
`PET.get_invocation` and `Tempest.get_invocation` declare only three
parameters, so for those tools the call raises `TypeError` instead of
producing a `Result`; the two PRISM-family builders do accept the memory
limit and return a command line. -/
theorem claim_c2_invocation_type_error :
    run_invocation (.pet true) [] 8192 = .error .typeError ∧
    run_invocation (.pet false) [] 8192 = .error .typeError ∧
    run_invocation .tempest [] 8192 = .error .typeError ∧
    (∃ inv, run_invocation (.prismGames "explicit") [("N", "5")] 8192 = .ok inv) ∧
    (∃ inv, run_invocation (.prismGamesExt .INTERVAL_ITERATION) [] 8192 = .ok inv) :=
  ⟨rfl, rfl, rfl, ⟨_, rfl⟩, ⟨_, rfl⟩⟩

/-! ## Claim C7: result-line selection in `parse_outcome` -/

set_option maxRecDepth 80000 in
/-- C7 fails on the code: on a stdout with two result lines, both parsers
return the value of the FIRST matching line (`"0.25"`), because the loop
over `lines[::-1]` assigns on every match without a `break`, so the final
assignment comes from the last element of the reversed list.  The second
and fourth conjuncts exhibit the value of the last matching line
(`"0.75"`), which the claim says should be returned. -/
theorem claim_c7_first_match :
    prismParseOutcome c7PrismStdout "" = .ok (some ⟨1, "0.25"⟩) ∧
    ((pySplitlines c7PrismStdout).reverse.find? (fun l => pyStartsWith l "Result: ")).map
        (fun l => (pySplit (pyDrop l (pyLen "Result: ")) ' ').headD "") = some "0.75" ∧
    tempestParseOutcome c7TempestStdout "" = .ok (some ⟨3 / 2, "0.25"⟩) ∧
    ((pySplitlines c7TempestStdout).reverse.find?
        (fun l => pyStartsWith l "Result (for initial states): ")).map
        (fun l => pyDrop l (pyLen "Result (for initial states): ")) = some "0.75" := by
  refine ⟨?_, ?_, ?_, ?_⟩
  · simp [c7PrismStdout, prismParseOutcome, pySplitlines, pySplit, splitOnChar,
      pyStartsWith, pyDrop, pyLen, pyFloat, digitsToNat]
  · simp [c7PrismStdout, pySplitlines, pySplit, splitOnChar, pyStartsWith, pyDrop, pyLen]
  · simp [c7TempestStdout, tempestParseOutcome, pySplitlines, pySplit, splitOnChar,
      pyStartsWith, pyDrop, pyDropRight, pyLen, pyFloat, digitsToNat]
    norm_num
  · simp [c7TempestStdout, pySplitlines, pySplit, splitOnChar, pyStartsWith, pyDrop, pyLen]

/-! ## Claim C8: sandbox cleanup independence -/

/-- C8 fails as stated: a kill failure of a type its `except` clause does
not catch (a read timeout) propagates out of the `finally` block and skips
the wait and remove steps, and a removal failure of such a type is raised
to the caller rather than logged. -/
theorem claim_c8_counterexample :
    (run_with_cleanup (.ok (.timeout "o" "e" 1)) (some .readTimeout) none none).1 = [.kill] ∧
    (run_with_cleanup (.ok (.timeout "o" "e" 1)) none none (some .readTimeout)).2 =
      .error .readTimeout :=
  ⟨rfl, rfl⟩

/-- C8 (amended): whenever the kill step succeeds or fails with the Docker
API error its handler catches, all three cleanup steps are attempted in
order, whatever the body and the wait and remove steps do; a removal
outcome of success or a caught API error leaves the body's outcome intact,
and a removal API error is logged. -/
theorem claim_c8_cleanup (body : Except DockerExc Result)
    (kill wait remove : Option DockerExc)
    (hk : ∀ e, kill = some e → e = .apiError) :
    (run_with_cleanup body kill wait remove).1 = [.kill, .wait, .remove] ∧
    ((remove = none ∨ remove = some .apiError) →
      (run_with_cleanup body kill wait remove).2 = body) ∧
    (remove = some .apiError → (cleanup kill wait remove).2.2 = true) := by
  have hkill : kill = none ∨ kill = some .apiError := by
    cases kill with
    | none => exact Or.inl rfl
    | some e => exact Or.inr (by rw [hk e rfl])
  rcases hkill with h | h <;> subst h <;>
    rcases wait with _ | we <;> rcases remove with _ | re
  all_goals try cases we
  all_goals try cases re
  all_goals
    simp [run_with_cleanup, cleanup, cleanupFromWait, killCaught, waitCaught, removeCaught]

/-- Witness for C8 (amended): every step fails with a caught API error or
succeeds; all three steps run, the body's result survives, the removal
failure is logged. -/
theorem claim_c8_cleanup_witness :
    (run_with_cleanup (.ok (.timeout "o" "e" 1)) (some .apiError) (some .readTimeout)
        (some .apiError)).1 = [.kill, .wait, .remove] ∧
    (run_with_cleanup (.ok (.timeout "o" "e" 1)) (some .apiError) (some .readTimeout)
        (some .apiError)).2 = .ok (.timeout "o" "e" 1) ∧
    (cleanup (some .apiError) (some .readTimeout) (some .apiError)).2.2 = true := by
  have h := claim_c8_cleanup (.ok (.timeout "o" "e" 1)) (some .apiError) (some .readTimeout)
    (some .apiError) (fun e he => by injection he with h2; exact h2.symm)
  exact ⟨h.1, h.2.1 (Or.inr rfl), h.2.2 rfl⟩

/-! ## Claim C1: the planner -/

/-- C1 fails on the code: the force path, the not-executed path and the
all-conditions-false skip path call `logger.trace`, which does not exist
on `logging.Logger`, so on exactly those paths the planner raises
`AttributeError` instead of returning `True`/`False`.  The four conjuncts
evaluate the embedded closure: execution forced; no prior experiment; a
prior experiment with every staleness condition false (hash, timestamps,
result and input hash all current); and — returning `True` normally — a
prior experiment whose stored tool-definition hash differs. -/
theorem claim_c1_trace_attribute_error :
    should_execute true none 600 (fun _ => "h") (fun _ => 0) c1Instance .tempest none =
      .error .attributeError ∧
    should_execute false none 600 (fun _ => "h") (fun _ => 0) c1Instance .tempest none =
      .error .attributeError ∧
    should_execute false none 600 (fun _ => "h") (fun _ => 0) c1Instance .tempest
      (some c1Experiment) = .error .attributeError ∧
    should_execute false none 600 (fun _ => "other") (fun _ => 0) c1Instance .tempest
      (some c1Experiment) = .ok true := by
  refine ⟨rfl, rfl, ?_, ?_⟩
  · simp [should_execute, c1Experiment, c1Execution, c1Instance, pyTruthy, List.lookup,
      ToolSpec.unique_key]
  · simp [should_execute, c1Experiment, c1Execution, c1Instance, pyTruthy, List.lookup,
      ToolSpec.unique_key]

/-! ## Claims C10 and C9: the experiment store

Lemmas about Python dict assignment on association lists, the recording
step, and the execution loop. -/

theorem lookup_dictSet_self {α : Type} (m : List (String × α)) (k : String) (v : α) :
    List.lookup k (dictSet m k v) = some v := by
  induction m with
  | nil => simp [dictSet, List.lookup]
  | cons p rest ih =>
    obtain ⟨k0, v0⟩ := p
    by_cases h : k0 = k
    · subst h
      simp [dictSet, List.lookup]
    · have hb : (k == k0) = false := beq_eq_false_iff_ne.mpr (Ne.symm h)
      simp [dictSet, h, List.lookup, hb, ih]

theorem lookup_dictSet_ne {α : Type} (m : List (String × α)) (k k2 : String) (v : α)
    (h : k2 ≠ k) : List.lookup k2 (dictSet m k v) = List.lookup k2 m := by
  have hb : (k2 == k) = false := beq_eq_false_iff_ne.mpr h
  induction m with
  | nil => simp [dictSet, List.lookup, hb]
  | cons p rest ih =>
    obtain ⟨k0, v0⟩ := p
    by_cases h0 : k0 = k
    · subst h0
      simp [dictSet, List.lookup, hb]
    · simp [dictSet, h0, List.lookup, ih]

theorem lookup_dictModify_self {α : Type} (m : List (String × α)) (k : String) (f : α → α) :
    List.lookup k (dictModify m k f) = (List.lookup k m).map f := by
  induction m with
  | nil => simp [dictModify, List.lookup]
  | cons p rest ih =>
    obtain ⟨k0, v0⟩ := p
    by_cases h : k0 = k
    · subst h
      simp [dictModify, List.lookup]
    · have hb : (k == k0) = false := beq_eq_false_iff_ne.mpr (Ne.symm h)
      simp [dictModify, h, List.lookup, hb, ih]

theorem lookup_dictModify_ne {α : Type} (m : List (String × α)) (k k2 : String) (f : α → α)
    (h : k2 ≠ k) : List.lookup k2 (dictModify m k f) = List.lookup k2 m := by
  have hb : (k2 == k) = false := beq_eq_false_iff_ne.mpr h
  induction m with
  | nil => simp [dictModify]
  | cons p rest ih =>
    obtain ⟨k0, v0⟩ := p
    by_cases h0 : k0 = k
    · subst h0
      simp [dictModify, List.lookup, hb]
    · simp [dictModify, h0, List.lookup, ih]

/-- Recording leaves every other instance key untouched. -/
theorem lookup_record_other (m : List (String × Experiment)) (ik ih tk : String)
    (ex : Execution) (k : String) (hk : k ≠ ik) :
    List.lookup k (record_execution m ik ih tk ex) = List.lookup k m := by
  unfold record_execution
  by_cases h : (List.lookup ik m).isNone = true
  · rw [if_pos h, lookup_dictModify_ne _ _ _ _ hk, lookup_dictSet_ne _ _ _ _ hk]
  · rw [if_neg h, lookup_dictModify_ne _ _ _ _ hk]

/-- Recording under an absent instance key creates the fresh experiment
with the current hash and the single execution. -/
theorem lookup_record_self_none (m : List (String × Experiment)) (ik ih tk : String)
    (ex : Execution) (h : List.lookup ik m = none) :
    List.lookup ik (record_execution m ik ih tk ex) = some ⟨ik, ih, [(tk, ex)]⟩ := by
  unfold record_execution
  rw [if_pos (by simp [h]), lookup_dictModify_self, lookup_dictSet_self]
  rfl

/-- Recording under a present instance key only rewrites that experiment's
executions dict; its key and hash fields are untouched. -/
theorem lookup_record_self_some (m : List (String × Experiment)) (ik ih tk : String)
    (ex : Execution) (old : Experiment) (h : List.lookup ik m = some old) :
    List.lookup ik (record_execution m ik ih tk ex) =
      some { old with tool_executions := dictSet old.tool_executions tk ex } := by
  unfold record_execution
  rw [if_neg (by simp [h]), lookup_dictModify_self, h]
  rfl

/-- The recorded execution is retrievable. -/
theorem getExec_record_self (m : List (String × Experiment)) (ik ih tk : String)
    (ex : Execution) : getExec (record_execution m ik ih tk ex) ik tk = some ex := by
  unfold getExec
  cases h : List.lookup ik m with
  | none =>
    rw [lookup_record_self_none _ _ _ _ _ h]
    simp [List.lookup]
  | some old =>
    rw [lookup_record_self_some _ _ _ _ _ _ h]
    simp [lookup_dictSet_self]

/-- Recording one pair leaves every other `(instance, tool)` slot of the
store unchanged. -/
theorem getExec_record_other (m : List (String × Experiment)) (ik ih tk : String)
    (ex : Execution) (ik2 tk2 : String) (h : ik2 ≠ ik ∨ tk2 ≠ tk) :
    getExec (record_execution m ik ih tk ex) ik2 tk2 = getExec m ik2 tk2 := by
  unfold getExec
  rcases h with h | h
  · rw [lookup_record_other _ _ _ _ _ _ h]
  · by_cases hik : ik2 = ik
    · subst hik
      have hb : (tk2 == tk) = false := beq_eq_false_iff_ne.mpr h
      cases h2 : List.lookup ik2 m with
      | none =>
        rw [lookup_record_self_none _ _ _ _ _ h2]
        simp [List.lookup, hb]
      | some old =>
        rw [lookup_record_self_some _ _ _ _ _ _ h2]
        simp [lookup_dictSet_ne _ _ _ _ h]
    · rw [lookup_record_other _ _ _ _ _ _ hik]

theorem exec_loop_cons (r : RunRecord) (recs : List RunRecord)
    (m : List (String × Experiment)) :
    exec_loop (r :: recs) m =
      exec_loop recs (record_execution m r.instance_key r.instance_hash r.tool_key
        r.execution) := rfl

theorem exec_loop_append (l1 l2 : List RunRecord) (m : List (String × Experiment)) :
    exec_loop (l1 ++ l2) m = exec_loop l2 (exec_loop l1 m) := by
  simp [exec_loop, List.foldl_append]

/-- A run of recordings touching other pairs preserves a slot of the
store. -/
theorem getExec_exec_loop_untouched (recs : List RunRecord) :
    ∀ (m : List (String × Experiment)) (ik tk : String),
      (∀ r ∈ recs, r.instance_key ≠ ik ∨ r.tool_key ≠ tk) →
      getExec (exec_loop recs m) ik tk = getExec m ik tk := by
  induction recs with
  | nil => intro m ik tk _; rfl
  | cons r rest ih =>
    intro m ik tk h
    rw [exec_loop_cons, ih _ _ _ (fun r2 hr2 => h r2 (List.mem_cons_of_mem _ hr2))]
    exact getExec_record_other _ _ _ _ _ _ _
      ((h r (List.mem_cons_self _ _)).imp Ne.symm Ne.symm)

/-- C10: recording a completed execution changes only the slot
`experiments[i.key].tool_executions[t.unique_key]`: every other instance
key keeps its binding; when the instance key was absent a fresh
`Experiment` is created carrying the current input hash and exactly the
one execution; when it was present, only its executions dict gains (or
overwrites) the tool's entry — the `input_hash` field stays the stored
one, and every other tool entry is unchanged. -/
theorem claim_c10_frame (experiments : List (String × Experiment))
    (ikey ihash tkey : String) (execution : Execution) :
    (∀ k, k ≠ ikey →
      List.lookup k (record_execution experiments ikey ihash tkey execution) =
        List.lookup k experiments) ∧
    (List.lookup ikey experiments = none →
      List.lookup ikey (record_execution experiments ikey ihash tkey execution) =
        some ⟨ikey, ihash, [(tkey, execution)]⟩) ∧
    (∀ old, List.lookup ikey experiments = some old →
      List.lookup ikey (record_execution experiments ikey ihash tkey execution) =
        some { old with tool_executions := dictSet old.tool_executions tkey execution } ∧
      ({ old with tool_executions := dictSet old.tool_executions tkey execution } :
        Experiment).input_hash = old.input_hash ∧
      List.lookup tkey (dictSet old.tool_executions tkey execution) = some execution ∧
      ∀ tk, tk ≠ tkey →
        List.lookup tk (dictSet old.tool_executions tkey execution) =
          List.lookup tk old.tool_executions) := by
  refine ⟨fun k hk => lookup_record_other _ _ _ _ _ _ hk,
    fun h => lookup_record_self_none _ _ _ _ _ h,
    fun old h => ⟨lookup_record_self_some _ _ _ _ _ _ h, rfl,
      lookup_dictSet_self _ _ _, fun tk htk => lookup_dictSet_ne _ _ _ _ htk⟩⟩

/-- Witness for C10 on a concrete store: the other experiment is untouched
and the fresh experiment holds exactly the new execution. -/
theorem claim_c10_frame_witness :
    List.lookup "other" (record_execution c10Store "i" "h" "pet" c10Execution) =
      List.lookup "other" c10Store ∧
    List.lookup "i" (record_execution c10Store "i" "h" "pet" c10Execution) =
      some ⟨"i", "h", [("pet", c10Execution)]⟩ :=
  ⟨(claim_c10_frame c10Store "i" "h" "pet" c10Execution).1 "other" (by decide),
   (claim_c10_frame c10Store "i" "h" "pet" c10Execution).2.1 (by decide)⟩

/-- C9: a `KeyboardInterrupt` after `k` completed pairs still reaches the
save step, which serializes the store built by exactly those `k`
recordings; every execution recorded before the interruption and not
overwritten by a later recording of the same pair is present in the saved
store. -/
theorem claim_c9_interrupt_save (recs : List RunRecord) (k : Nat)
    (experiments : List (String × Experiment)) (j : Nat)
    (hj : j < (recs.take k).length)
    (hlast : ∀ r2 ∈ (recs.take k).drop (j + 1),
      r2.instance_key ≠ ((recs.take k).get ⟨j, hj⟩).instance_key ∨
      r2.tool_key ≠ ((recs.take k).get ⟨j, hj⟩).tool_key) :
    main_loop_save recs (some k) experiments =
      serialize_experiments (exec_loop (recs.take k) experiments) ∧
    getExec (exec_loop (recs.take k) experiments)
        ((recs.take k).get ⟨j, hj⟩).instance_key ((recs.take k).get ⟨j, hj⟩).tool_key =
      some ((recs.take k).get ⟨j, hj⟩).execution := by
  refine ⟨rfl, ?_⟩
  set r := (recs.take k).get ⟨j, hj⟩ with hr
  have hsplit : recs.take k = (recs.take k).take (j + 1) ++ (recs.take k).drop (j + 1) :=
    (List.take_append_drop _ _).symm
  have htake : (recs.take k).take (j + 1) = (recs.take k).take j ++ [r] := by
    rw [List.take_succ, List.getElem?_eq_getElem hj, hr]
    rfl
  conv_lhs => rw [hsplit]
  rw [exec_loop_append]
  rw [getExec_exec_loop_untouched _ _ _ _ hlast]
  rw [htake, exec_loop_append]
  exact getExec_record_self _ _ _ _ _

/-- Witness for C9: two recordings of the same pair are scheduled, the
loop is interrupted after the first, and the saved store holds the first
execution. -/
theorem claim_c9_interrupt_save_witness :
    main_loop_save c9Records (some 1) [] =
      serialize_experiments (exec_loop (c9Records.take 1) []) ∧
    getExec (exec_loop (c9Records.take 1) []) "i" "pet" = some c9Execution := by
  have h := claim_c9_interrupt_save c9Records 1 [] 0 (by decide)
    (by intro r2 h2; simp [c9Records] at h2)
  exact ⟨h.1, h.2⟩

end QComp
